import Mathlib

/-!
Verification development for the search-collector transformation pipeline.

Source files embedded:
* `src/unnamed/part_000` (package `transforms`): the `Node` type, the
  `Transformer` with its `Start` method, the worker body `transformRoutine`,
  and the panic supervisor `handleRoutineExit`.
* `src/pkg/transforms/policy.go`: the `PolicyResource` adapter with its
  `BuildNode` and `BuildEdges` methods.

Parts of the repository referenced by these files but absent from `src/`
(the per-kind extraction functions, `transformCommon`, `apiGroupVersion`,
the `Edge`/`NodeStore` types, and the `mcm.Policy` data type) are modelled
from the spec; each such definition carries a doc comment starting with
`Modelled from the spec:`.

Go maps of properties are embedded as association lists where a write
prepends, so a lookup finds the most recent write (matching Go map
assignment/lookup semantics).  Goroutines and channels are embedded as a
small-step transition system on a pipeline state: each worker slot holds at
most one in-flight item, dequeue and emit are separate atomic steps, and a
fault step drops the in-flight item and resets the slot (the respawned
replacement worker bound to the same channels).
-/

/-- Property values stored in a `Node`'s `Properties` map
(`map[string]interface{}` in the source). -/
inductive PValue where
  | str (s : String)
  | int (n : Int)
  | bool (b : Bool)
  deriving DecidableEq, Repr

/-- The `Node` struct from `part_000`: a UID and a property map.
The Go `map[string]interface{}` is embedded as an association list where
writes prepend and lookups take the first match. -/
structure Node where
  UID : String
  Properties : List (String × PValue)
  deriving DecidableEq, Repr

/-- Go map assignment `node.Properties[k] = v`. -/
def setProp (n : Node) (k : String) (v : PValue) : Node :=
  { n with Properties := (k, v) :: n.Properties }

/-- Go map lookup `node.Properties[k]` (with the `ok` flag as `Option`). -/
def getProp (n : Node) (k : String) : Option PValue :=
  n.Properties.lookup k

/-- The `Operation` tag from `part_000`. -/
inductive Operation where
  | Create
  | Update
  | Delete
  deriving DecidableEq, Repr

/-- Modelled from the spec: `metav1.ObjectMeta` — the universally present
metadata of a resource (uid, name, namespace, labels). -/
structure ObjectMeta where
  uid : String
  name : String
  nspace : String
  labels : List (String × String)
  deriving DecidableEq, Repr

/-- Modelled from the spec: `metav1.TypeMeta` — the kind and apiVersion of
a resource. -/
structure TypeMeta where
  kind : String
  apiVersion : String
  deriving DecidableEq, Repr

/-- The thirteen concrete kinds of the type switch in `transformRoutine`,
plus a constructor for every other typed resource (the `default` case). -/
inductive Kind where
  | ConfigMap
  | CronJob
  | DaemonSet
  | Deployment
  | Job
  | Namespace
  | Node
  | PersistentVolume
  | Pod
  | ReplicaSet
  | Secret
  | Service
  | StatefulSet
  | Other (name : String)
  deriving DecidableEq, Repr

/-- Modelled from the spec: a strongly typed resource read from the `Input`
channel (`machineryV1.Object`), with its concrete kind, group/version and
metadata. -/
structure TypedResource where
  kind : Kind
  apiGroup : String
  version : String
  meta : ObjectMeta
  deriving DecidableEq, Repr

/-- Modelled from the spec: a dynamic resource read from the `DynamicInput`
channel (`*unstructured.Unstructured`). -/
structure UnstructuredResource where
  kindName : String
  apiGroup : String
  version : String
  meta : ObjectMeta
  deriving DecidableEq, Repr

/-- Modelled from the spec: the universally present view of a resource that
the shared common extraction reads (identity fields plus metadata). -/
structure CommonView where
  uid : String
  kindName : String
  apiGroup : String
  version : String
  name : String
  nspace : String
  deriving DecidableEq, Repr

/-- Modelled from the spec: `transformCommon` — the shared common
extraction.  Builds a node whose UID is the resource's UID and whose
properties are the identity fields (kind, apiGroup, version) plus the
universally present metadata (name, namespace). -/
def transformCommon (v : CommonView) : Node :=
  { UID := v.uid
    Properties :=
      [("kind", PValue.str v.kindName),
       ("apiGroup", PValue.str v.apiGroup),
       ("version", PValue.str v.version),
       ("name", PValue.str v.name),
       ("namespace", PValue.str v.nspace)] }

/-- Modelled from the spec: `apiGroupVersion` — adds the kind, apiGroup and
version properties from a resource's `TypeMeta`, splitting `apiVersion` at
the `/` separating group from version. -/
def apiGroupVersion (tm : TypeMeta) (n : Node) : Node :=
  let parts := tm.apiVersion.splitOn "/"
  let node := setProp n "kind" (PValue.str tm.kind)
  match parts with
  | [g, v] => setProp (setProp node "apiGroup" (PValue.str g)) "version" (PValue.str v)
  | _ => setProp (setProp node "apiGroup" (PValue.str "")) "version" (PValue.str tm.apiVersion)

/-- The common view of a typed resource. -/
def TypedResource.commonView (r : TypedResource) : CommonView :=
  { uid := r.meta.uid
    kindName :=
      match r.kind with
      | .ConfigMap => "ConfigMap"
      | .CronJob => "CronJob"
      | .DaemonSet => "DaemonSet"
      | .Deployment => "Deployment"
      | .Job => "Job"
      | .Namespace => "Namespace"
      | .Node => "Node"
      | .PersistentVolume => "PersistentVolume"
      | .Pod => "Pod"
      | .ReplicaSet => "ReplicaSet"
      | .Secret => "Secret"
      | .Service => "Service"
      | .StatefulSet => "StatefulSet"
      | .Other s => s
    apiGroup := r.apiGroup
    version := r.version
    name := r.meta.name
    nspace := r.meta.nspace }

/-- Modelled from the spec: each registered kind's dedicated extraction
function starts from the common baseline and layers the kind's
type-specific properties on top; the specific fields themselves are out of
the spec's scope, so they are abstracted as one marker property naming the
dedicated function that produced the node. -/
def dedicatedTransform (marker : String) (r : TypedResource) : Node :=
  setProp (transformCommon r.commonView) "typeSpecific" (PValue.str marker)

/-- Modelled from the spec: `transformConfigMap`. -/
def transformConfigMap (r : TypedResource) : Node := dedicatedTransform "ConfigMap" r

/-- Modelled from the spec: `transformCronJob`. -/
def transformCronJob (r : TypedResource) : Node := dedicatedTransform "CronJob" r

/-- Modelled from the spec: `transformDaemonSet`. -/
def transformDaemonSet (r : TypedResource) : Node := dedicatedTransform "DaemonSet" r

/-- Modelled from the spec: `transformDeployment`. -/
def transformDeployment (r : TypedResource) : Node := dedicatedTransform "Deployment" r

/-- Modelled from the spec: `transformJob`. -/
def transformJob (r : TypedResource) : Node := dedicatedTransform "Job" r

/-- Modelled from the spec: `transformNamespace`. -/
def transformNamespace (r : TypedResource) : Node := dedicatedTransform "Namespace" r

/-- Modelled from the spec: `transformNode`. -/
def transformNode (r : TypedResource) : Node := dedicatedTransform "Node" r

/-- Modelled from the spec: `transformPersistentVolume`. -/
def transformPersistentVolume (r : TypedResource) : Node := dedicatedTransform "PersistentVolume" r

/-- Modelled from the spec: `transformPod`. -/
def transformPod (r : TypedResource) : Node := dedicatedTransform "Pod" r

/-- Modelled from the spec: `transformReplicaSet`. -/
def transformReplicaSet (r : TypedResource) : Node := dedicatedTransform "ReplicaSet" r

/-- Modelled from the spec: `transformSecret`. -/
def transformSecret (r : TypedResource) : Node := dedicatedTransform "Secret" r

/-- Modelled from the spec: `transformService`. -/
def transformService (r : TypedResource) : Node := dedicatedTransform "Service" r

/-- Modelled from the spec: `transformStatefulSet`. -/
def transformStatefulSet (r : TypedResource) : Node := dedicatedTransform "StatefulSet" r

/-- The common view of an unstructured resource. -/
def UnstructuredResource.commonView (u : UnstructuredResource) : CommonView :=
  { uid := u.meta.uid
    kindName := u.kindName
    apiGroup := u.apiGroup
    version := u.version
    name := u.meta.name
    nspace := u.meta.nspace }

/-- Modelled from the spec: `transformUnstructured` — the extraction for
dynamic resources, which pulls only the universally present metadata. -/
def transformUnstructured (u : UnstructuredResource) : Node :=
  transformCommon u.commonView

/-- The common view of an arbitrary typed resource used by the `default`
branch of the type switch (`transformCommon(typedResource)`). -/
def transformCommonTyped (r : TypedResource) : Node :=
  transformCommon r.commonView

/-- The type switch of `transformRoutine` on a resource read from the
`input` channel: dispatch on the concrete kind to the dedicated extraction
function, with `transformCommon` as the `default` branch. -/
def dispatchTyped (r : TypedResource) : Node :=
  match r.kind with
  | .ConfigMap => transformConfigMap r
  | .CronJob => transformCronJob r
  | .DaemonSet => transformDaemonSet r
  | .Deployment => transformDeployment r
  | .Job => transformJob r
  | .Namespace => transformNamespace r
  | .Node => transformNode r
  | .PersistentVolume => transformPersistentVolume r
  | .Pod => transformPod r
  | .ReplicaSet => transformReplicaSet r
  | .Secret => transformSecret r
  | .Service => transformService r
  | .StatefulSet => transformStatefulSet r
  | .Other _ => transformCommonTyped r

/-- A resource dequeued by a worker from one of the two intake channels. -/
inductive Item where
  | typed (r : TypedResource)
  | dyn (u : UnstructuredResource)
  deriving DecidableEq, Repr

/-- The transformation one iteration of `transformRoutine` applies to the
item it dequeued: the type switch for the `input` channel,
`transformUnstructured` for the `dynamicInput` channel. -/
def transformItem : Item → Node
  | .typed r => dispatchTyped r
  | .dyn u => transformUnstructured u

/-- The UID of the underlying resource of an item. -/
def itemUID : Item → String
  | .typed r => r.meta.uid
  | .dyn u => u.meta.uid

/-- A channel identifier: channels are embedded by identity, since the
code only ever passes them around. -/
abbrev ChanId := Nat

/-- The `Transformer` struct from `part_000`: the two intake channels and
the output channel. -/
structure Transformer where
  Input : ChanId
  DynamicInput : ChanId
  Output : ChanId
  deriving DecidableEq, Repr

/-- A spawned worker goroutine, recorded by the three channels it is bound
to (`go transformRoutine(input, dynamicInput, output)`). -/
structure Routine where
  input : ChanId
  dynamicInput : ChanId
  output : ChanId
  deriving DecidableEq, Repr

/-- `Transformer.Start` from `part_000`: returns an error when
`numRoutines < 1`, otherwise spawns `numRoutines` copies of
`transformRoutine` bound to the transformer's three channels.  The
embedding returns the list of goroutines spawned. -/
def Transformer.Start (t : Transformer) (numRoutines : Int) :
    Except String (List Routine) :=
  if numRoutines < 1 then
    .error "numRoutines must be 1 or greater"
  else
    .ok (List.replicate numRoutines.toNat
      { input := t.Input, dynamicInput := t.DynamicInput, output := t.Output })

/-- `handleRoutineExit` from `part_000`: runs when a worker goroutine
exits; `recovered` is the value returned by `recover()` (`none` when the
goroutine did not panic).  Returns the list of replacement goroutines it
spawns. -/
def handleRoutineExit (input dynamicInput output : ChanId)
    (recovered : Option String) : List Routine :=
  match recovered with
  | some _ => [{ input := input, dynamicInput := dynamicInput, output := output }]
  | none => []

/-- The state of the pipeline: the two intake channels, the worker slots
(each holding its in-flight item, `none` when waiting in the `select`),
the output channel, and the items dropped by faulted workers. -/
structure PipeState where
  input : List TypedResource
  dynamic : List UnstructuredResource
  workers : List (Option Item)
  output : List Node
  lost : List Item
  deriving DecidableEq, Repr

/-- One atomic transition of the pipeline.  A waiting worker may dequeue
the head of either intake channel (the `select` has no priority between
them); a worker holding an item pushes its transformed node to the output
channel and returns to waiting; or the transformation of the in-flight
item panics, in which case the item is dropped and `handleRoutineExit`
respawns a worker on the same channels (the slot returns to waiting). -/
inductive Step : PipeState → PipeState → Prop
  | takeInput (r : TypedResource) (rest : List TypedResource)
      (dyn : List UnstructuredResource) (ws₁ ws₂ : List (Option Item))
      (out : List Node) (lost : List Item) :
      Step ⟨r :: rest, dyn, ws₁ ++ none :: ws₂, out, lost⟩
        ⟨rest, dyn, ws₁ ++ some (.typed r) :: ws₂, out, lost⟩
  | takeDynamic (u : UnstructuredResource) (rest : List UnstructuredResource)
      (inp : List TypedResource) (ws₁ ws₂ : List (Option Item))
      (out : List Node) (lost : List Item) :
      Step ⟨inp, u :: rest, ws₁ ++ none :: ws₂, out, lost⟩
        ⟨inp, rest, ws₁ ++ some (.dyn u) :: ws₂, out, lost⟩
  | emit (x : Item) (inp : List TypedResource)
      (dyn : List UnstructuredResource) (ws₁ ws₂ : List (Option Item))
      (out : List Node) (lost : List Item) :
      Step ⟨inp, dyn, ws₁ ++ some x :: ws₂, out, lost⟩
        ⟨inp, dyn, ws₁ ++ none :: ws₂, out ++ [transformItem x], lost⟩
  | fault (x : Item) (inp : List TypedResource)
      (dyn : List UnstructuredResource) (ws₁ ws₂ : List (Option Item))
      (out : List Node) (lost : List Item) :
      Step ⟨inp, dyn, ws₁ ++ some x :: ws₂, out, lost⟩
        ⟨inp, dyn, ws₁ ++ none :: ws₂, out, x :: lost⟩

/-- Reachability: zero or more pipeline transitions. -/
def Reaches : PipeState → PipeState → Prop :=
  Relation.ReflTransGen Step

/-- The initial state after `Start`: `k` idle workers, the submitted
resources in the intake channels, nothing emitted, nothing lost. -/
def initState (k : Nat) (ts : List TypedResource)
    (ds : List UnstructuredResource) : PipeState :=
  ⟨ts, ds, List.replicate k none, [], []⟩

/-- A drained state: both intake channels are empty and every worker is
back at its `select`, waiting. -/
def Drained (s : PipeState) : Prop :=
  s.input = [] ∧ s.dynamic = [] ∧ ∀ w ∈ s.workers, w = none

instance (s : PipeState) : Decidable (Drained s) := by
  unfold Drained; infer_instance

/-- The multiset of items still owned by the pipeline (queued, in flight,
or dropped by a fault). -/
def liveItems (s : PipeState) : Multiset Item :=
  ↑(s.input.map Item.typed) + ↑(s.dynamic.map Item.dyn)
    + ↑(s.workers.filterMap id)

/-- The conserved quantity of the pipeline: every submitted item is
accounted for either by a node on the output channel, by a pending
position (queue or worker slot), or by the lost list. -/
def accounted (s : PipeState) : Multiset Node :=
  ↑s.output + Multiset.map transformItem (liveItems s + ↑s.lost)

/-- Modelled from the spec: a rule inside a role template; only the count
of rules matters to the adapter. -/
structure PolicyRule where
  name : String
  deriving DecidableEq, Repr

/-- Modelled from the spec: `mcm.RoleTemplate` — carries a list of rules. -/
structure RoleTemplate where
  Rules : List PolicyRule
  deriving DecidableEq, Repr

/-- Modelled from the spec: `mcm.PolicySpec`.  `RoleTemplates` is a Go
slice of pointers, so the slice itself may be nil (`none`) and each entry
may be nil. -/
structure PolicySpec where
  RemediationAction : String
  RoleTemplates : Option (List (Option RoleTemplate))
  deriving DecidableEq, Repr

/-- Modelled from the spec: `mcm.PolicyStatus`. -/
structure PolicyStatus where
  ComplianceState : String
  Valid : Bool
  deriving DecidableEq, Repr

/-- Modelled from the spec: `mcm.Policy` — TypeMeta, ObjectMeta, spec and
status. -/
structure Policy where
  TypeMeta : TypeMeta
  ObjectMeta : ObjectMeta
  Spec : PolicySpec
  Status : PolicyStatus
  deriving DecidableEq, Repr

/-- The `PolicyResource` adapter from `policy.go`: a wrapper around a
`mcm.Policy`. -/
structure PolicyResource where
  policy : Policy
  deriving DecidableEq, Repr

/-- The common view of a Policy resource, as `transformCommon(p)` sees it
(identity from TypeMeta, metadata from ObjectMeta). -/
def PolicyResource.commonView (p : PolicyResource) : CommonView :=
  { uid := p.policy.ObjectMeta.uid
    kindName := p.policy.TypeMeta.kind
    apiGroup :=
      match p.policy.TypeMeta.apiVersion.splitOn "/" with
      | [g, _] => g
      | _ => ""
    version :=
      match p.policy.TypeMeta.apiVersion.splitOn "/" with
      | [_, v] => v
      | _ => p.policy.TypeMeta.apiVersion
    name := p.policy.ObjectMeta.name
    nspace := p.policy.ObjectMeta.nspace }

/-- The rule-count accumulation loop of `BuildNode`:
`rules := 0; if RoleTemplates != nil { for _, role := range RoleTemplates
{ if role != nil { rules += len(role.Rules) } } }`. -/
def countRules (rts : Option (List (Option RoleTemplate))) : Int :=
  match rts with
  | none => 0
  | some ts =>
      ts.foldl (fun acc role =>
        match role with
        | some r => acc + (r.Rules.length : Int)
        | none => acc) 0

/-- `PolicyResource.BuildNode` from `policy.go`: start from the common
properties, add kind/apiGroup/version from TypeMeta, then the
policy-specific properties, the aggregated rule count, and the optional
parent labels. -/
def PolicyResource.BuildNode (p : PolicyResource) : Node :=
  let node := transformCommon p.commonView
  let node := apiGroupVersion p.policy.TypeMeta node
  let node := setProp node "remediationAction" (PValue.str p.policy.Spec.RemediationAction)
  let node := setProp node "compliant" (PValue.str p.policy.Status.ComplianceState)
  let node := setProp node "valid" (PValue.bool p.policy.Status.Valid)
  let rules := countRules p.policy.Spec.RoleTemplates
  let node := setProp node "numRules" (PValue.int rules)
  let node :=
    match p.policy.ObjectMeta.labels.lookup "parent-namespace" with
    | some pnamespace => setProp node "parent-namespace" (PValue.str pnamespace)
    | none => node
  let node :=
    match p.policy.ObjectMeta.labels.lookup "parent-policy" with
    | some ppolicy => setProp node "parent-policy" (PValue.str ppolicy)
    | none => node
  node

/-- Modelled from the spec: `Edge` — a relationship between two nodes
(source UID, destination UID, label). -/
structure Edge where
  SourceUID : String
  DestUID : String
  EdgeType : String
  deriving DecidableEq, Repr

/-- Modelled from the spec: `NodeStore` — a read-only lookup of previously
built nodes by UID. -/
structure NodeStore where
  byUID : List (String × Node)
  deriving DecidableEq, Repr

/-- `PolicyResource.BuildEdges` from `policy.go`: a no-op that returns the
empty edge list. -/
def PolicyResource.BuildEdges (_p : PolicyResource) (_ns : NodeStore) : List Edge :=
  []

/-- The spec's description of the `numRules` aggregation: the sum of the
rule counts of all non-null role templates, `0` when there are none. -/
def specNumRules (rts : Option (List (Option RoleTemplate))) : Int :=
  match rts with
  | none => 0
  | some ts =>
      (ts.map (fun role =>
        match role with
        | some r => (r.Rules.length : Int)
        | none => 0)).sum

theorem countRules_go (ts : List (Option RoleTemplate)) (acc : Int) :
    ts.foldl (fun acc role =>
        match role with
        | some r => acc + (r.Rules.length : Int)
        | none => acc) acc
      = acc + (ts.map (fun role =>
        match role with
        | some r => (r.Rules.length : Int)
        | none => 0)).sum := by
  induction ts generalizing acc with
  | nil => simp
  | cons hd tl ih =>
      cases hd with
      | none => simp [List.foldl_cons, ih]
      | some r => simp [List.foldl_cons, ih]; ring

theorem countRules_eq_spec (rts : Option (List (Option RoleTemplate))) :
    countRules rts = specNumRules rts := by
  cases rts with
  | none => rfl
  | some ts => simpa [countRules, specNumRules] using countRules_go ts 0

/-- The node built for an item carries the UID of the underlying
resource. -/
theorem transformItem_UID (x : Item) : (transformItem x).UID = itemUID x := by
  cases x with
  | typed r =>
      obtain ⟨k, g, v, m⟩ := r
      cases k <;> rfl
  | dyn u => rfl

/-- C2: `Transformer.Start(numRoutines)` returns an error if and only if
`numRoutines < 1`; in the error case no worker goroutine is launched, and
in the success case exactly `numRoutines` workers are launched, all bound
to the transformer's three channels, and the call returns without error. -/
theorem Start_spawns_iff_valid (t : Transformer) (n : Int) :
    ((∃ e, t.Start n = Except.error e) ↔ n < 1)
    ∧ (∀ rs, t.Start n = Except.ok rs →
        (rs.length : Int) = n
          ∧ ∀ r ∈ rs, r.input = t.Input ∧ r.dynamicInput = t.DynamicInput
              ∧ r.output = t.Output) :=
  by
  constructor
  · constructor
    · rintro ⟨e, he⟩
      by_contra hlt
      simp [Transformer.Start, hlt] at he
    · intro hlt
      exact ⟨"numRoutines must be 1 or greater", by simp [Transformer.Start, hlt]⟩
  · intro rs hok
    by_cases hlt : n < 1
    · simp [Transformer.Start, hlt] at hok
    · simp only [Transformer.Start, hlt, if_false, Except.ok.injEq] at hok
      subst hok
      refine ⟨?_, ?_⟩
      · simp [Int.toNat_of_nonneg (by omega : (0 : Int) ≤ n)]
      · intro r hr
        rcases List.eq_of_mem_replicate hr with rfl
        exact ⟨rfl, rfl, rfl⟩

theorem Start_spawns_iff_valid_witness :
    ((∃ e, Transformer.Start ⟨0, 1, 2⟩ 0 = Except.error e) ↔ (0 : Int) < 1)
    ∧ (([(⟨0, 1, 2⟩ : Routine), ⟨0, 1, 2⟩].length : Int) = 2
        ∧ ∀ r ∈ [(⟨0, 1, 2⟩ : Routine), ⟨0, 1, 2⟩], r.input = 0 ∧ r.dynamicInput = 1
            ∧ r.output = 2) :=
  ⟨(Start_spawns_iff_valid ⟨0, 1, 2⟩ 0).1,
   (Start_spawns_iff_valid ⟨0, 1, 2⟩ 2).2 [⟨0, 1, 2⟩, ⟨0, 1, 2⟩] (by rfl)⟩

/-- C4: on worker exit, `handleRoutineExit` spawns exactly one replacement
worker bound to the same three channels when (and only when) the worker
died of a panic; a worker that exits without panicking is not replaced. -/
theorem respawn_iff_panic (i d o : ChanId) (r : Option String) :
    (r ≠ none → handleRoutineExit i d o r
        = [{ input := i, dynamicInput := d, output := o }])
    ∧ (r = none → handleRoutineExit i d o r = []) := by
  constructor
  · intro hr
    cases r with
    | none => exact absurd rfl hr
    | some v => rfl
  · intro hr
    subst hr
    rfl

theorem respawn_iff_panic_witness :
    handleRoutineExit 0 1 2 (some "boom") = [{ input := 0, dynamicInput := 1, output := 2 }]
    ∧ handleRoutineExit 0 1 2 none = [] :=
  ⟨(respawn_iff_panic 0 1 2 (some "boom")).1 (by simp),
   (respawn_iff_panic 0 1 2 none).2 rfl⟩

/-- C10: `PolicyResource.BuildEdges` returns the empty edge list for every
policy and every store; the embedding is a pure function of the store, so
the store is left unchanged by construction. -/
theorem BuildEdges_empty (p : PolicyResource) (ns : NodeStore) :
    p.BuildEdges ns = [] :=
  rfl

/-- C8: `BuildNode` is deterministic and idempotent — it is a pure
function of the adapter (the embedding of a Go method that only reads the
resource), so two calls on equal adapter instances return nodes equal in
every field (UID and Properties alike). -/
theorem BuildNode_deterministic (p q : PolicyResource) (h : p = q) :
    p.BuildNode = q.BuildNode
      ∧ p.BuildNode.UID = q.BuildNode.UID
      ∧ p.BuildNode.Properties = q.BuildNode.Properties := by
  subst h
  exact ⟨rfl, rfl, rfl⟩

theorem BuildNode_deterministic_witness :
    (PolicyResource.mk ⟨⟨"Policy", "policy.mcm.ibm.com/v1alpha1"⟩,
        ⟨"uid-1", "p", "default", []⟩, ⟨"inform", none⟩, ⟨"Compliant", true⟩⟩).BuildNode
      = (PolicyResource.mk ⟨⟨"Policy", "policy.mcm.ibm.com/v1alpha1"⟩,
        ⟨"uid-1", "p", "default", []⟩, ⟨"inform", none⟩, ⟨"Compliant", true⟩⟩).BuildNode
    ∧ (PolicyResource.mk ⟨⟨"Policy", "policy.mcm.ibm.com/v1alpha1"⟩,
        ⟨"uid-1", "p", "default", []⟩, ⟨"inform", none⟩, ⟨"Compliant", true⟩⟩).BuildNode.UID
      = (PolicyResource.mk ⟨⟨"Policy", "policy.mcm.ibm.com/v1alpha1"⟩,
        ⟨"uid-1", "p", "default", []⟩, ⟨"inform", none⟩, ⟨"Compliant", true⟩⟩).BuildNode.UID
    ∧ (PolicyResource.mk ⟨⟨"Policy", "policy.mcm.ibm.com/v1alpha1"⟩,
        ⟨"uid-1", "p", "default", []⟩, ⟨"inform", none⟩, ⟨"Compliant", true⟩⟩).BuildNode.Properties
      = (PolicyResource.mk ⟨⟨"Policy", "policy.mcm.ibm.com/v1alpha1"⟩,
        ⟨"uid-1", "p", "default", []⟩, ⟨"inform", none⟩, ⟨"Compliant", true⟩⟩).BuildNode.Properties :=
  BuildNode_deterministic _ _ rfl

theorem getProp_setProp_same (n : Node) (k : String) (v : PValue) :
    getProp (setProp n k v) k = some v := by
  simp [getProp, setProp, List.lookup]

theorem getProp_setProp_ne (n : Node) (k k' : String) (v : PValue)
    (h : k' ≠ k) : getProp (setProp n k v) k' = getProp n k' := by
  simp [getProp, setProp, List.lookup, beq_eq_false_iff_ne.mpr h]

/-- C3: the type switch of `transformRoutine` routes each of the thirteen
registered kinds to its dedicated extraction function, every other typed
resource to the generic common extraction, and every dynamic resource to
the unstructured extraction — the dispatch is a total function, so no
dequeued resource is dropped. -/
theorem dispatch_registry (r : TypedResource) (u : UnstructuredResource) :
    dispatchTyped { r with kind := .ConfigMap } = transformConfigMap { r with kind := .ConfigMap }
    ∧ dispatchTyped { r with kind := .CronJob } = transformCronJob { r with kind := .CronJob }
    ∧ dispatchTyped { r with kind := .DaemonSet } = transformDaemonSet { r with kind := .DaemonSet }
    ∧ dispatchTyped { r with kind := .Deployment } = transformDeployment { r with kind := .Deployment }
    ∧ dispatchTyped { r with kind := .Job } = transformJob { r with kind := .Job }
    ∧ dispatchTyped { r with kind := .Namespace } = transformNamespace { r with kind := .Namespace }
    ∧ dispatchTyped { r with kind := .Node } = transformNode { r with kind := .Node }
    ∧ dispatchTyped { r with kind := .PersistentVolume } = transformPersistentVolume { r with kind := .PersistentVolume }
    ∧ dispatchTyped { r with kind := .Pod } = transformPod { r with kind := .Pod }
    ∧ dispatchTyped { r with kind := .ReplicaSet } = transformReplicaSet { r with kind := .ReplicaSet }
    ∧ dispatchTyped { r with kind := .Secret } = transformSecret { r with kind := .Secret }
    ∧ dispatchTyped { r with kind := .Service } = transformService { r with kind := .Service }
    ∧ dispatchTyped { r with kind := .StatefulSet } = transformStatefulSet { r with kind := .StatefulSet }
    ∧ (∀ s, dispatchTyped { r with kind := .Other s } = transformCommonTyped { r with kind := .Other s })
    ∧ transformItem (Item.dyn u) = transformUnstructured u := by
  refine ⟨rfl, rfl, rfl, rfl, rfl, rfl, rfl, rfl, rfl, rfl, rfl, rfl, rfl, fun s => rfl, rfl⟩

/-- The concrete policy of the spec's scenario: remediation `enforce`,
compliance `Compliant`, valid, and two role templates with 3 and 5 rules. -/
def scenarioPolicy : PolicyResource :=
  { policy :=
    { TypeMeta := { kind := "Policy", apiVersion := "policy.mcm.ibm.com/v1alpha1" }
      ObjectMeta := { uid := "uid-pol", name := "test-policy", nspace := "mcm", labels := [] }
      Spec :=
        { RemediationAction := "enforce"
          RoleTemplates := some
            [some { Rules := List.replicate 3 { name := "r" } },
             some { Rules := List.replicate 5 { name := "s" } }] }
      Status := { ComplianceState := "Compliant", Valid := true } } }

/-- C6: `BuildNode` sets `numRules` to the sum of the rule counts of all
non-null role templates (`specNumRules` is that sum, written as the spec
states it); on the spec's scenario policy the node carries
`remediationAction="enforce"`, `compliant="Compliant"`, `valid=true` and
`numRules=8`. -/
theorem numRules_is_sum :
    (∀ p : PolicyResource, getProp p.BuildNode "numRules"
        = some (PValue.int (specNumRules p.policy.Spec.RoleTemplates)))
    ∧ getProp scenarioPolicy.BuildNode "remediationAction" = some (PValue.str "enforce")
    ∧ getProp scenarioPolicy.BuildNode "compliant" = some (PValue.str "Compliant")
    ∧ getProp scenarioPolicy.BuildNode "valid" = some (PValue.bool true)
    ∧ getProp scenarioPolicy.BuildNode "numRules" = some (PValue.int 8) := by
  refine ⟨?_, by decide, by decide, by decide, by decide⟩
  intro p
  obtain ⟨⟨⟨tmk, tmv⟩, ⟨muid, mname, mns, mlabels⟩, sp, st⟩⟩ := p
  rw [← countRules_eq_spec]
  cases hpn : mlabels.lookup "parent-namespace" <;>
  cases hpp : mlabels.lookup "parent-policy" <;>
  rcases hsp : tmv.splitOn "/" with _ | ⟨g, _ | ⟨v, _ | ⟨w, rest⟩⟩⟩ <;>
  simp [PolicyResource.BuildNode, apiGroupVersion, setProp, getProp,
    PolicyResource.commonView, transformCommon, List.lookup, hsp, hpn, hpp]

/-- C7: the node built for a policy carries the `parent-namespace`
(respectively `parent-policy`) property exactly when the metadata labels
carry that key, with the label's value; when the label is missing the key
is absent from the node's property map entirely. -/
theorem parent_props_iff_labels (p : PolicyResource) :
    getProp p.BuildNode "parent-namespace"
      = (p.policy.ObjectMeta.labels.lookup "parent-namespace").map PValue.str
    ∧ getProp p.BuildNode "parent-policy"
      = (p.policy.ObjectMeta.labels.lookup "parent-policy").map PValue.str
    ∧ (p.policy.ObjectMeta.labels.lookup "parent-namespace" = none →
        "parent-namespace" ∉ p.BuildNode.Properties.map Prod.fst)
    ∧ (p.policy.ObjectMeta.labels.lookup "parent-policy" = none →
        "parent-policy" ∉ p.BuildNode.Properties.map Prod.fst) := by
  obtain ⟨⟨⟨tmk, tmv⟩, ⟨muid, mname, mns, mlabels⟩, sp, st⟩⟩ := p
  cases hpn : mlabels.lookup "parent-namespace" <;>
  cases hpp : mlabels.lookup "parent-policy" <;>
  rcases hsp : tmv.splitOn "/" with _ | ⟨g, _ | ⟨v, _ | ⟨w, rest⟩⟩⟩ <;>
  simp [PolicyResource.BuildNode, apiGroupVersion, setProp, getProp,
    PolicyResource.commonView, transformCommon, List.lookup, hsp, hpn, hpp]

/-- A policy resource without parent labels, for the C7 witness. -/
def plainPolicy : PolicyResource :=
  { policy :=
    { TypeMeta := { kind := "Policy", apiVersion := "policy.mcm.ibm.com/v1alpha1" }
      ObjectMeta := { uid := "uid-a", name := "pa", nspace := "default", labels := [] }
      Spec := { RemediationAction := "inform", RoleTemplates := none }
      Status := { ComplianceState := "NonCompliant", Valid := false } } }

/-- A policy resource with both parent labels, for the C7 witness. -/
def labeledPolicy : PolicyResource :=
  { policy :=
    { TypeMeta := { kind := "Policy", apiVersion := "policy.mcm.ibm.com/v1alpha1" }
      ObjectMeta :=
        { uid := "uid-b", name := "pb", nspace := "default"
          labels := [("parent-namespace", "ns1"), ("parent-policy", "pol1")] }
      Spec := { RemediationAction := "inform", RoleTemplates := none }
      Status := { ComplianceState := "Compliant", Valid := true } } }

theorem parent_props_iff_labels_witness :
    "parent-namespace" ∉ plainPolicy.BuildNode.Properties.map Prod.fst
    ∧ "parent-policy" ∉ plainPolicy.BuildNode.Properties.map Prod.fst
    ∧ getProp labeledPolicy.BuildNode "parent-namespace" = some (PValue.str "ns1")
    ∧ getProp labeledPolicy.BuildNode "parent-policy" = some (PValue.str "pol1") :=
  ⟨(parent_props_iff_labels plainPolicy).2.2.1 (by decide),
   (parent_props_iff_labels plainPolicy).2.2.2 (by decide),
   (parent_props_iff_labels labeledPolicy).1.trans (by decide),
   (parent_props_iff_labels labeledPolicy).2.1.trans (by decide)⟩

/-- C9: every node the pipeline emits — whichever of the dedicated,
generic or dynamic extraction paths produced it — and every node the
Policy adapter builds carries the baseline identity properties `kind`,
`apiGroup` and `version` contributed by the shared common extraction. -/
theorem emitted_baseline (x : Item) (p : PolicyResource) :
    ((getProp (transformItem x) "kind").isSome
      ∧ (getProp (transformItem x) "apiGroup").isSome
      ∧ (getProp (transformItem x) "version").isSome)
    ∧ ((getProp p.BuildNode "kind").isSome
      ∧ (getProp p.BuildNode "apiGroup").isSome
      ∧ (getProp p.BuildNode "version").isSome) := by
  constructor
  · cases x with
    | typed r =>
        obtain ⟨k, g, v, m⟩ := r
        cases k <;>
        simp [transformItem, dispatchTyped, transformConfigMap, transformCronJob,
          transformDaemonSet, transformDeployment, transformJob, transformNamespace,
          transformNode, transformPersistentVolume, transformPod, transformReplicaSet,
          transformSecret, transformService, transformStatefulSet, transformCommonTyped,
          dedicatedTransform, setProp, getProp, transformCommon,
          TypedResource.commonView, List.lookup]
    | dyn u =>
        simp [transformItem, transformUnstructured, transformCommon, getProp,
          UnstructuredResource.commonView, List.lookup]
  · obtain ⟨⟨⟨tmk, tmv⟩, ⟨muid, mname, mns, mlabels⟩, sp, st⟩⟩ := p
    cases hpn : mlabels.lookup "parent-namespace" <;>
    cases hpp : mlabels.lookup "parent-policy" <;>
    rcases hsp : tmv.splitOn "/" with _ | ⟨g, _ | ⟨v, _ | ⟨w, rest⟩⟩⟩ <;>
    simp [PolicyResource.BuildNode, apiGroupVersion, setProp, getProp,
      PolicyResource.commonView, transformCommon, List.lookup, hsp, hpn, hpp]

/-- Each pipeline transition conserves the accounting: dequeueing moves an
item from a channel to a worker slot, emitting moves it (transformed) to
the output channel, and a fault moves it to the lost list. -/
theorem step_accounted {s s' : PipeState} (h : Step s s') : accounted s' = accounted s := by
  cases h <;>
  · simp only [accounted, liveItems, List.filterMap_append, List.filterMap_cons,
      List.map_cons, id, ← Multiset.coe_add, ← Multiset.cons_coe,
      Multiset.map_add, Multiset.map_cons, ← Multiset.singleton_add,
      Multiset.map_singleton]
    abel

theorem reaches_accounted {s s' : PipeState} (h : Reaches s s') :
    accounted s' = accounted s := by
  induction h with
  | refl => rfl
  | tail _ hstep ih => exact (step_accounted hstep).trans ih

/-- The items submitted to the pipeline across the two intake channels. -/
def submitted (ts : List TypedResource) (ds : List UnstructuredResource) :
    Multiset Item :=
  ↑(ts.map Item.typed) + ↑(ds.map Item.dyn)

theorem filterMap_id_replicate_none (k : Nat) :
    (List.replicate k (none : Option Item)).filterMap id = [] := by
  induction k with
  | zero => rfl
  | succ n ih => simp [List.replicate_succ, List.filterMap_cons, ih]

theorem accounted_init (k : Nat) (ts : List TypedResource)
    (ds : List UnstructuredResource) :
    accounted (initState k ts ds) = Multiset.map transformItem (submitted ts ds) := by
  simp [accounted, initState, liveItems, submitted, filterMap_id_replicate_none]

theorem drained_filterMap {s : PipeState} (h : Drained s) :
    s.workers.filterMap id = [] := by
  rcases h with ⟨-, -, hw⟩
  rw [List.filterMap_eq_nil_iff]
  intro a ha
  rw [hw a ha]
  rfl

theorem drained_accounted {s : PipeState} (hd : Drained s) :
    accounted s = ↑s.output + Multiset.map transformItem ↑s.lost := by
  obtain ⟨h1, h2, h3⟩ := hd
  simp [accounted, liveItems, h1, h2, drained_filterMap ⟨h1, h2, h3⟩]

/-- C1: in a fault-free run (`final.lost = []`) of the pipeline with at
least one worker, once both intake channels are drained and every worker
is back at its `select`, the output channel holds exactly the transformed
nodes of the submitted resources — one node per resource, with a UID
matching that resource, with no duplicates (given distinct inputs) and no
omissions. -/
theorem pipeline_exactly_once (k : Nat) (_hk : 1 ≤ k) (ts : List TypedResource)
    (ds : List UnstructuredResource) (final : PipeState)
    (hrun : Reaches (initState k ts ds) final) (hdrained : Drained final)
    (hnofault : final.lost = []) :
    (↑final.output : Multiset Node) = Multiset.map transformItem (submitted ts ds)
    ∧ (↑(final.output.map Node.UID) : Multiset String)
        = Multiset.map itemUID (submitted ts ds)
    ∧ final.output.length = ts.length + ds.length
    ∧ (((ts.map Item.typed ++ ds.map Item.dyn).map itemUID).Nodup →
        (final.output.map Node.UID).Nodup) := by
  have hacc := reaches_accounted hrun
  rw [accounted_init, drained_accounted hdrained, hnofault] at hacc
  simp only [Multiset.coe_nil, Multiset.map_zero, add_zero] at hacc
  have huid : (↑(final.output.map Node.UID) : Multiset String)
      = Multiset.map itemUID (submitted ts ds) := by
    calc (↑(final.output.map Node.UID) : Multiset String)
        = Multiset.map Node.UID ↑final.output := by
          rw [Multiset.map_coe]
      _ = Multiset.map Node.UID (Multiset.map transformItem (submitted ts ds)) := by
          rw [hacc]
      _ = Multiset.map (fun x => (transformItem x).UID) (submitted ts ds) := by
          rw [Multiset.map_map]
          rfl
      _ = Multiset.map itemUID (submitted ts ds) :=
          Multiset.map_congr rfl (fun x _ => transformItem_UID x)
  refine ⟨hacc, huid, ?_, ?_⟩
  · have := congrArg Multiset.card hacc
    simpa [submitted, Multiset.coe_card] using this
  · intro hnd
    have hsub : submitted ts ds = ↑(ts.map Item.typed ++ ds.map Item.dyn) := by
      simp [submitted, ← Multiset.coe_add]
    rw [hsub, Multiset.map_coe] at huid
    have : ((ts.map Item.typed ++ ds.map Item.dyn).map itemUID : Multiset String).Nodup :=
      Multiset.coe_nodup.mpr hnd
    rw [← huid] at this
    exact Multiset.coe_nodup.mp this

/-- C5: a fault while transforming a dequeued resource is scoped to that
one in-flight item: the step that records a fault leaves the intake
channels and the output channel untouched; at the end of any run, the
output plus the transforms of the lost items account exactly for every
submitted resource (so only successfully constructed nodes are emitted);
and with distinct inputs, a node for a lost item never reaches the output
channel — it is dropped, not retried. -/
theorem fault_scoped_to_item (k : Nat) (ts : List TypedResource)
    (ds : List UnstructuredResource) (final : PipeState)
    (hrun : Reaches (initState k ts ds) final) (hdrained : Drained final) :
    (∀ s s', Step s s' → s'.lost ≠ s.lost →
        s'.input = s.input ∧ s'.dynamic = s.dynamic ∧ s'.output = s.output)
    ∧ (↑final.output + Multiset.map transformItem ↑final.lost
        = Multiset.map transformItem (submitted ts ds))
    ∧ (((ts.map Item.typed ++ ds.map Item.dyn).map itemUID).Nodup →
        ∀ x ∈ final.lost, itemUID x ∉ final.output.map Node.UID) := by
  have hacc := reaches_accounted hrun
  rw [accounted_init, drained_accounted hdrained] at hacc
  refine ⟨?_, hacc, ?_⟩
  · intro s s' hstep hlost
    cases hstep with
    | takeInput r rest dyn ws₁ ws₂ out lost => exact absurd rfl hlost
    | takeDynamic u rest inp ws₁ ws₂ out lost => exact absurd rfl hlost
    | emit x inp dyn ws₁ ws₂ out lost => exact absurd rfl hlost
    | fault x inp dyn ws₁ ws₂ out lost => exact ⟨rfl, rfl, rfl⟩
  · intro hnd x hx hmem
    have huid := congrArg (Multiset.map Node.UID) hacc
    rw [Multiset.map_add, Multiset.map_map, Multiset.map_map] at huid
    have htr : ∀ m : Multiset Item,
        Multiset.map (Node.UID ∘ transformItem) m = Multiset.map itemUID m :=
      fun m => Multiset.map_congr rfl (fun y _ => transformItem_UID y)
    rw [htr, htr] at huid
    have hsub : submitted ts ds = ↑(ts.map Item.typed ++ ds.map Item.dyn) := by
      simp [submitted, ← Multiset.coe_add]
    rw [hsub] at huid
    have hcount := congrArg (Multiset.count (itemUID x)) huid
    rw [Multiset.count_add] at hcount
    have h1 : 1 ≤ Multiset.count (itemUID x) (Multiset.map Node.UID ↑final.output) := by
      rw [Multiset.one_le_count_iff_mem, Multiset.map_coe]
      exact Multiset.mem_coe.mpr hmem
    have h2 : 1 ≤ Multiset.count (itemUID x) (Multiset.map itemUID ↑final.lost) := by
      rw [Multiset.one_le_count_iff_mem]
      exact Multiset.mem_map_of_mem itemUID (Multiset.mem_coe.mpr hx)
    have hnd2 : (Multiset.map itemUID
        (↑(ts.map Item.typed ++ ds.map Item.dyn) : Multiset Item)).Nodup := by
      rw [Multiset.map_coe]
      exact Multiset.coe_nodup.mpr hnd
    have hrhs := (Multiset.nodup_iff_count_le_one.mp hnd2) (itemUID x)
    omega

/-- A concrete typed resource for the pipeline runs. -/
def wTyped : TypedResource :=
  { kind := .Pod, apiGroup := "", version := "v1"
    meta := { uid := "uid-t", name := "p1", nspace := "ns", labels := [] } }

/-- A concrete dynamic resource for the pipeline runs. -/
def wDyn : UnstructuredResource :=
  { kindName := "Widget", apiGroup := "example.com", version := "v1"
    meta := { uid := "uid-d", name := "w1", nspace := "ns", labels := [] } }

/-- The state after a fault-free run of one worker over both resources. -/
def wFinal : PipeState :=
  { input := [], dynamic := [], workers := [none]
    output := [transformItem (Item.typed wTyped), transformItem (Item.dyn wDyn)]
    lost := [] }

theorem wRun : Reaches (initState 1 [wTyped] [wDyn]) wFinal :=
  Relation.ReflTransGen.tail
    (Relation.ReflTransGen.tail
      (Relation.ReflTransGen.tail
        (Relation.ReflTransGen.tail Relation.ReflTransGen.refl
          (Step.takeInput wTyped [] [wDyn] [] [] [] []))
        (Step.emit (Item.typed wTyped) [] [wDyn] [] [] [] []))
      (Step.takeDynamic wDyn [] [] [] [] [transformItem (Item.typed wTyped)] []))
    (Step.emit (Item.dyn wDyn) [] [] [] [] [transformItem (Item.typed wTyped)] [])

theorem pipeline_exactly_once_witness :
    (1 ≤ 1 ∧ Drained wFinal ∧ wFinal.lost = [])
    ∧ ((↑wFinal.output : Multiset Node)
          = Multiset.map transformItem (submitted [wTyped] [wDyn])
        ∧ (↑(wFinal.output.map Node.UID) : Multiset String)
          = Multiset.map itemUID (submitted [wTyped] [wDyn])
        ∧ wFinal.output.length = [wTyped].length + [wDyn].length
        ∧ ((([wTyped].map Item.typed ++ [wDyn].map Item.dyn).map itemUID).Nodup →
            (wFinal.output.map Node.UID).Nodup)) :=
  ⟨⟨by decide, by decide, rfl⟩,
   pipeline_exactly_once 1 (by decide) [wTyped] [wDyn] wFinal wRun (by decide) rfl⟩

/-- The state after a run in which the worker faults on the typed
resource and is respawned. -/
def wLostFinal : PipeState :=
  { input := [], dynamic := [], workers := [none]
    output := [transformItem (Item.dyn wDyn)]
    lost := [Item.typed wTyped] }

theorem wLostRun : Reaches (initState 1 [wTyped] [wDyn]) wLostFinal :=
  Relation.ReflTransGen.tail
    (Relation.ReflTransGen.tail
      (Relation.ReflTransGen.tail
        (Relation.ReflTransGen.tail Relation.ReflTransGen.refl
          (Step.takeInput wTyped [] [wDyn] [] [] [] []))
        (Step.fault (Item.typed wTyped) [] [wDyn] [] [] [] []))
      (Step.takeDynamic wDyn [] [] [] [] [] [Item.typed wTyped]))
    (Step.emit (Item.dyn wDyn) [] [] [] [] [] [Item.typed wTyped])

theorem fault_scoped_to_item_witness :
    Drained wLostFinal
    ∧ itemUID (Item.typed wTyped) ∉ wLostFinal.output.map Node.UID
    ∧ (↑wLostFinal.output + Multiset.map transformItem ↑wLostFinal.lost
        = Multiset.map transformItem (submitted [wTyped] [wDyn])) :=
  ⟨by decide,
   (fault_scoped_to_item 1 [wTyped] [wDyn] wLostFinal wLostRun (by decide)).2.2
     (by decide) (Item.typed wTyped) (by decide),
   (fault_scoped_to_item 1 [wTyped] [wDyn] wLostFinal wLostRun (by decide)).2.1⟩
